import Mathlib

/-!
Shallow embedding of the two-tier cache engine in `cache/__init__.py`
(classes `Files`, `Entry`, `Manifest`, `Cache` and the decorator-produced
`wrapper` function), together with proofs of the specified properties.

Modelling conventions:
* Python values cached by the engine are an abstract type `V`; the private
  sentinel `NONE` (absence of materialized data) is modelled by `Option V`
  with `none` playing `NONE`, so a cached Python `None` is just some `v : V`.
* Timestamps and durations (`time.time()` floats) are modelled as `ℚ`.
  Each wrapper invocation receives a single `now` for its clock reads.
* JSON scalar values appearing in manifest records are `JVal`
  (null / number / string); a record is an association list of fields, the
  manifest file is either undecodable or a decoded dict of records.
* Exceptions are modelled with `Except`/`Option`: a raised exception that
  propagates is an `.error` outcome; exceptions the source catches and
  falls through from are folded into `none` results at the catch site.
* Filesystem state is explicit: a map from data-file names to file
  contents `F`, plus the manifest file's content.
-/

/-- A JSON scalar value as found in manifest records. -/
inductive JVal : Type
  | null : JVal
  | num : ℚ → JVal
  | str : String → JVal
deriving DecidableEq

/-- Python truthiness of a `JVal` (`bool(v)`). -/
def truthy : JVal → Bool
  | .null => false
  | .num q => q ≠ 0
  | .str s => s ≠ ""

/-- Numeric value of a digit list, `none` unless all characters are digits
(helper for the Python `float(...)` conversion on strings). -/
def digitsVal : List Char → Option ℕ
  | [] => none
  | l => if l.all Char.isDigit then some (l.foldl (fun a c => a * 10 + (c.toNat - 48)) 0)
         else none

/-- Python `float(s)` on a string: optional sign, decimal digits with an
optional fractional part (whitespace trimmed); `none` models `ValueError`. -/
def parseFloat : String → Option ℚ := fun s =>
  let t := s.trim
  let sgn : ℚ := if t.startsWith "-" then -1 else 1
  let u := if t.startsWith "-" || t.startsWith "+" then t.drop 1 else t
  match u.splitOn "." with
  | [a] => (digitsVal a.toList).map fun n => sgn * n
  | [a, b] =>
      if a.toList.all Char.isDigit && b.toList.all Char.isDigit
          && (a ≠ "" || b ≠ "") then
        some (sgn * (((digitsVal a.toList).getD 0 : ℚ)
          + ((digitsVal b.toList).getD 0 : ℚ) / (10 : ℚ) ^ b.length))
      else none
  | _ => none

/-- Python `float(v)` on a JSON scalar; `none` models `TypeError`/`ValueError`. -/
def pyFloat : JVal → Option ℚ
  | .null => none
  | .num q => some q
  | .str s => parseFloat s

/-- Lookup in a Python-dict-like association list (keys are unique in any
dict the source builds, so first match is the binding). -/
def lookupA {α : Type} : List (String × α) → String → Option α
  | [], _ => none
  | (k', v) :: t, k => if k' = k then some v else lookupA t k

/-- Python dict assignment `d[k] = v`: replace in place, else append. -/
def setA {α : Type} : List (String × α) → String → α → List (String × α)
  | [], k, v => [(k, v)]
  | (k', v') :: t, k, v => if k' = k then (k, v) :: t else (k', v') :: setA t k v

/-- Python dict `d.pop(k)`'s removal effect (caller checks presence). -/
def popA {α : Type} : List (String × α) → String → List (String × α)
  | [], _ => []
  | (k', v') :: t, k => if k' = k then t else (k', v') :: popA t k

/-- `Entry`: an entry in a manifest file.  `name` and `expiration` hold raw
values (the source never validates their types on load), `created` is always
a float after `__init__`, and `data` uses `none` for the `NONE` sentinel. -/
structure Entry (V : Type) where
  name : JVal
  expiration : JVal
  created : ℚ
  data : Option V
deriving DecidableEq

/-- `Entry.__init__`: `created` defaults to `time.time()` via
`created or time.time()`, so a falsy (absent or zero) value becomes `now`. -/
def Entry.init {V : Type} (now : ℚ) (name : JVal) (expiration : JVal)
    (created : Option ℚ) (data : Option V) : Entry V :=
  { name := name
    expiration := expiration
    created := match created with
      | none => now
      | some c => if c = 0 then now else c
    data := data }

/-- `Entry.dump`: serialize to a JSON record, stripping `data`. -/
def Entry.dump {V : Type} (e : Entry V) : List (String × JVal) :=
  [("name", e.name), ("created", .num e.created), ("expiration", e.expiration)]

/-- How loading a serialized entry can fail: a missing field (`KeyError`,
caught by `Manifest.read`) or a failed `float` conversion
(`ValueError`/`TypeError`, not caught). -/
inductive LoadErr : Type
  | keyError : LoadErr
  | valueError : LoadErr
deriving DecidableEq

/-- `Entry.load`: read `name`, `float(created)` and
`expiration and float(expiration)` from a record, then `Entry.__init__`. -/
def Entry.load (V : Type) (now : ℚ) (serialized : List (String × JVal)) :
    Except LoadErr (Entry V) :=
  match lookupA serialized "name" with
  | none => .error .keyError
  | some name =>
    match lookupA serialized "created" with
    | none => .error .keyError
    | some createdV =>
      match pyFloat createdV with
      | none => .error .valueError
      | some created =>
        match lookupA serialized "expiration" with
        | none => .error .keyError
        | some expV =>
          if truthy expV then
            match pyFloat expV with
            | none => .error .valueError
            | some q => .ok (Entry.init now name (JVal.num q) (some created) none)
          else .ok (Entry.init now name expV (some created) none)

/-- Content of the durable metadata file: either text that fails
`json.load` or a decoded dict of records. -/
inductive ManifestFile : Type
  | malformed : ManifestFile
  | wellFormed : List (String × List (String × JVal)) → ManifestFile
deriving DecidableEq

/-- The entry loop of `Manifest.read`: load each record into the map; a
`KeyError` clears the map accumulated so far and continues; a conversion
failure propagates. -/
def readEntries (V : Type) (now : ℚ) :
    List (String × List (String × JVal)) → List (String × Entry V) →
    Except Unit (List (String × Entry V))
  | [], acc => .ok acc
  | (k, rec) :: rest, acc =>
    match Entry.load V now rec with
    | .ok e => readEntries V now rest (setA acc k e)
    | .error .keyError => readEntries V now rest []
    | .error .valueError => .error ()

/-- `Manifest.read`: clear the in-memory map; on a decode failure log and
return (leaving it empty), else run the entry loop. -/
def Manifest.read (V : Type) (now : ℚ) :
    ManifestFile → Except Unit (List (String × Entry V))
  | .malformed => .ok []
  | .wellFormed items => readEntries V now items []

/-- In-memory manifest object together with the durable file it mirrors. -/
structure ManifestObj (V : Type) where
  map : List (String × Entry V)
  file : ManifestFile
deriving DecidableEq

/-- `Manifest.set`: insert or replace in the in-memory map (under the
mutation lock); returns the stored entry.  No file access. -/
def Manifest.set {V : Type} (m : ManifestObj V) (key : String) (entry : Entry V) :
    ManifestObj V × Entry V :=
  ({ m with map := setA m.map key entry }, entry)

/-- `Manifest.pop`: remove and return; `KeyError` (modelled `.error`) if
absent.  No file access. -/
def Manifest.pop {V : Type} (m : ManifestObj V) (key : String) :
    Except Unit (ManifestObj V × Entry V) :=
  match lookupA m.map key with
  | none => .error ()
  | some e => .ok ({ m with map := popA m.map key }, e)

/-- `Manifest.clear`: empty the in-memory map.  No file access. -/
def Manifest.clear {V : Type} (m : ManifestObj V) : ManifestObj V :=
  { m with map := [] }

/-- `Manifest.write`: serialize the full in-memory map over the file. -/
def Manifest.write {V : Type} (m : ManifestObj V) : ManifestObj V :=
  { m with file := .wellFormed (m.map.map fun p => (p.1, p.2.dump)) }

/-- Per-decoration configuration of the wrapper: the `persist` and
`expiration` arguments and the `store`/`retrieve` serializer pair
(`retrieve` returning `none` models the deserializer raising). -/
structure Config (V F : Type) where
  persist : Bool
  expiration : Option ℚ
  store : V → F
  retrieve : F → Option V

/-- The engine state a wrapper call reads and writes: the memory table
`_cache`, the manifest's in-memory map, the data files, and the
metadata file. -/
structure St (V F : Type) where
  cache : List (String × Entry V)
  manifest : List (String × Entry V)
  files : List (String × F)
  manifestFile : ManifestFile
deriving DecidableEq

/-- Observable outcome of one wrapper call: a returned value, or a
propagated exception (from the wrapped function, from the data-file write,
or a `TypeError` comparing a non-numeric expiration). -/
inductive Outcome (V : Type) : Type
  | ok : V → Outcome V
  | computeError : Outcome V
  | storeError : Outcome V
  | typeError : Outcome V
deriving DecidableEq

/-- Embed the decorator's `expiration` argument into an entry field. -/
def ofExpiration : Option ℚ → JVal
  | none => .null
  | some q => .num q

/-- `Cache.retrieve` via `Files.data` as the wrapper uses it: every failure
(non-string name, missing file, deserializer raising) is caught by the
wrapper's blanket `except`, so all collapse to `none`. -/
def retrieveData {V F : Type} (cfg : Config V F) (files : List (String × F))
    (name : JVal) : Option V :=
  match name with
  | .str s =>
    match lookupA files s with
    | some f => cfg.retrieve f
    | none => none
  | _ => none

/-- The wrapper's entry lookup: the memory table first, and only on a
memory miss (`elif persist`) the manifest.  The flag records which tier
the entry came from. -/
def findEntry {V F : Type} (cfg : Config V F) (st : St V F) (key : String) :
    Option (Bool × Entry V) :=
  match lookupA st.cache key with
  | some e => some (true, e)
  | none =>
    if cfg.persist then (lookupA st.manifest key).map (fun e => (false, e))
    else none

/-- The wrapper's miss path: invoke the wrapped function (propagating its
exception), build a fresh `Entry(expiration=expiration, data=result)`,
store it in the memory table, and when persisting also name it, register
it in the manifest and write the data file (a write failure propagates
after both in-memory commits).  The boolean reports that the wrapped
function was invoked. -/
def computeAndStore {V F : Type} (cfg : Config V F) (key : String) (now : ℚ)
    (freshName : String) (compute : Option V) (storeOk : Bool) (st : St V F) :
    Outcome V × St V F × Bool :=
  match compute with
  | none => (.computeError, st, true)
  | some result =>
    let e0 : Entry V := Entry.init now .null (ofExpiration cfg.expiration) none (some result)
    if cfg.persist then
      let e1 : Entry V := { e0 with name := .str freshName }
      let st1 : St V F :=
        { st with cache := setA st.cache key e1, manifest := setA st.manifest key e1 }
      if storeOk then
        (.ok result, { st1 with files := setA st1.files freshName (cfg.store result) }, true)
      else (.storeError, st1, true)
    else (.ok result, { st with cache := setA st.cache key e0 }, true)

/-- Serving a non-expired entry: return materialized data if present;
otherwise, when persisting, try the lazy file load (writing the filled
entry back to the tier it came from) and on failure fall through to the
miss path; without persistence fall through directly. -/
def serveHit {V F : Type} (cfg : Config V F) (key : String) (now : ℚ)
    (freshName : String) (compute : Option V) (storeOk : Bool) (st : St V F)
    (fromCache : Bool) (e : Entry V) : Outcome V × St V F × Bool :=
  match e.data with
  | some v => (.ok v, st, false)
  | none =>
    if cfg.persist then
      match retrieveData cfg st.files e.name with
      | some v =>
        let e' : Entry V := { e with data := some v }
        if fromCache then (.ok v, { st with cache := setA st.cache key e' }, false)
        else (.ok v, { st with manifest := setA st.manifest key e' }, false)
      | none => computeAndStore cfg key now freshName compute storeOk st
    else computeAndStore cfg key now freshName compute storeOk st

/-- One call of the decorator-produced `wrapper` for a fixed key.
`reload` bypasses every cached tier; otherwise a found entry is checked
for expiration (`expiration is None or now - created < expiration`; a
non-numeric expiration makes the comparison raise `TypeError`) and served
or treated as a miss. -/
def wrapper {V F : Type} (cfg : Config V F) (key : String) (now : ℚ)
    (freshName : String) (compute : Option V) (storeOk : Bool) (reload : Bool)
    (st : St V F) : Outcome V × St V F × Bool :=
  if reload then computeAndStore cfg key now freshName compute storeOk st
  else
    match findEntry cfg st key with
    | none => computeAndStore cfg key now freshName compute storeOk st
    | some (fromCache, e) =>
      match e.expiration with
      | .null => serveHit cfg key now freshName compute storeOk st fromCache e
      | .num d =>
        if now - e.created < d then
          serveHit cfg key now freshName compute storeOk st fromCache e
        else computeAndStore cfg key now freshName compute storeOk st
      | .str _ => (.typeError, st, false)

/-! ### Association-list lemmas -/

@[simp]
theorem lookupA_setA_self {α : Type} (l : List (String × α)) (k : String) (v : α) :
    lookupA (setA l k v) k = some v := by
  induction l with
  | nil => simp [setA, lookupA]
  | cons p t ih =>
    obtain ⟨k', v'⟩ := p
    by_cases h : k' = k
    · simp [setA, h, lookupA]
    · simp [setA, h, lookupA, ih]

theorem lookupA_setA_ne {α : Type} (l : List (String × α)) (k k' : String) (v : α)
    (h : k' ≠ k) : lookupA (setA l k v) k' = lookupA l k' := by
  have hk : ¬k = k' := fun hh => h hh.symm
  induction l with
  | nil => simp [setA, lookupA, hk]
  | cons p t ih =>
    obtain ⟨k'', v''⟩ := p
    by_cases hkk : k'' = k
    · subst hkk
      simp [setA, lookupA, hk]
    · simp [setA, hkk, lookupA, ih]

/-! ### Shared scenario lemma: a miss followed by a hit on the same key -/

/-- On a key absent from both tiers, a first call computes and caches the
result; a second call with the same key and `reload=false`, within the
expiration window, answers from the memory table: it needs neither the
wrapped function nor the data file, returns the same value, and leaves the
state unchanged. -/
theorem wrapper_fresh_miss_then_hit {V F : Type} (cfg : Config V F) (key : String)
    (t₁ t₂ : ℚ) (n₁ n₂ : String) (v : V) (c₂ : Option V) (sOk₂ : Bool) (st : St V F)
    (hc : lookupA st.cache key = none) (hm : lookupA st.manifest key = none)
    (hw : ∀ d, cfg.expiration = some d → t₂ - t₁ < d) :
    (wrapper cfg key t₁ n₁ (some v) true false st).1 = .ok v ∧
    (wrapper cfg key t₁ n₁ (some v) true false st).2.2 = true ∧
    (∃ e : Entry V, lookupA (wrapper cfg key t₁ n₁ (some v) true false st).2.1.cache key
        = some e ∧ e.data = some v ∧ e.created = t₁) ∧
    (wrapper cfg key t₂ n₂ c₂ sOk₂ false
        (wrapper cfg key t₁ n₁ (some v) true false st).2.1).1 = .ok v ∧
    (wrapper cfg key t₂ n₂ c₂ sOk₂ false
        (wrapper cfg key t₁ n₁ (some v) true false st).2.1).2.2 = false ∧
    (wrapper cfg key t₂ n₂ c₂ sOk₂ false
        (wrapper cfg key t₁ n₁ (some v) true false st).2.1).2.1
      = (wrapper cfg key t₁ n₁ (some v) true false st).2.1 := by
  have hfind : findEntry cfg st key = none := by
    simp [findEntry, hc, hm]
  have h1 : wrapper cfg key t₁ n₁ (some v) true false st
      = computeAndStore cfg key t₁ n₁ (some v) true st := by
    simp [wrapper, hfind]
  rw [h1]
  cases hp : cfg.persist with
  | false =>
    cases he : cfg.expiration with
    | none =>
      simp [computeAndStore, hp, he, Entry.init, ofExpiration, wrapper, findEntry,
        serveHit]
    | some d =>
      have hlt := hw d he
      simp [computeAndStore, hp, he, Entry.init, ofExpiration, wrapper, findEntry,
        serveHit, hlt]
  | true =>
    cases he : cfg.expiration with
    | none =>
      simp [computeAndStore, hp, he, Entry.init, ofExpiration, wrapper, findEntry,
        serveHit]
    | some d =>
      have hlt := hw d he
      simp [computeAndStore, hp, he, Entry.init, ofExpiration, wrapper, findEntry,
        serveHit, hlt]

/-! ### C1: idempotence under no reload -/

/-- C1: for a pure wrapped function and a key absent from both tiers,
calling the wrapper twice with the same arguments and `reload=false`
(within the expiration window) returns the same value both times; the
wrapped function runs on the first call and is not invoked by the second,
which is answered from the memory table. -/
theorem C1_idempotent_no_reload {V F : Type} (cfg : Config V F) (key : String)
    (t₁ t₂ : ℚ) (n₁ n₂ : String) (v : V) (st : St V F)
    (hc : lookupA st.cache key = none) (hm : lookupA st.manifest key = none)
    (hw : ∀ d, cfg.expiration = some d → t₂ - t₁ < d) :
    (wrapper cfg key t₁ n₁ (some v) true false st).1 = .ok v ∧
    (wrapper cfg key t₁ n₁ (some v) true false st).2.2 = true ∧
    (wrapper cfg key t₂ n₂ (some v) true false
        (wrapper cfg key t₁ n₁ (some v) true false st).2.1).1 = .ok v ∧
    (wrapper cfg key t₂ n₂ (some v) true false
        (wrapper cfg key t₁ n₁ (some v) true false st).2.1).2.2 = false := by
  obtain ⟨h1, h2, -, h4, h5, -⟩ :=
    wrapper_fresh_miss_then_hit cfg key t₁ t₂ n₁ n₂ v (some v) true st hc hm hw
  exact ⟨h1, h2, h4, h5⟩

/-- Witness for C1 at concrete inputs. -/
theorem C1_idempotent_no_reload_witness :
    (wrapper (V := ℕ) (F := ℕ) ⟨true, some 10, id, some⟩ "k" 1 "a" (some 7) true false
        ⟨[], [], [], .wellFormed []⟩).1 = .ok 7 ∧
    (wrapper (V := ℕ) (F := ℕ) ⟨true, some 10, id, some⟩ "k" 1 "a" (some 7) true false
        ⟨[], [], [], .wellFormed []⟩).2.2 = true ∧
    (wrapper ⟨true, some 10, id, some⟩ "k" 2 "b" (some 7) true false
        (wrapper (V := ℕ) (F := ℕ) ⟨true, some 10, id, some⟩ "k" 1 "a" (some 7) true false
          ⟨[], [], [], .wellFormed []⟩).2.1).1 = .ok 7 ∧
    (wrapper ⟨true, some 10, id, some⟩ "k" 2 "b" (some 7) true false
        (wrapper (V := ℕ) (F := ℕ) ⟨true, some 10, id, some⟩ "k" 1 "a" (some 7) true false
          ⟨[], [], [], .wellFormed []⟩).2.1).2.2 = false :=
  C1_idempotent_no_reload ⟨true, some 10, id, some⟩ "k" 1 2 "a" "b" 7
    ⟨[], [], [], .wellFormed []⟩ rfl rfl
    (fun d hd => by injection hd with h; rw [← h]; norm_num)

/-! ### C6: a cached null value is a hit, not a miss -/

/-- C6: instantiating the value domain at `Option ℕ` with `none` playing
the Python value `None`: a computed `None` is cached with the entry's data
field equal to `some none`, which differs from the unset sentinel `none`;
a second call returns exactly `None` from the memory table, and does so
even when the wrapped function would fail if invoked again. -/
theorem C6_none_value_is_hit {F : Type} (cfg : Config (Option ℕ) F) (key : String)
    (t₁ t₂ : ℚ) (n₁ n₂ : String) (st : St (Option ℕ) F)
    (hc : lookupA st.cache key = none) (hm : lookupA st.manifest key = none)
    (hw : ∀ d, cfg.expiration = some d → t₂ - t₁ < d) :
    (wrapper cfg key t₁ n₁ (some none) true false st).1 = .ok none ∧
    (∃ e : Entry (Option ℕ),
      lookupA (wrapper cfg key t₁ n₁ (some none) true false st).2.1.cache key = some e ∧
      e.data = some none ∧ e.data ≠ none) ∧
    (wrapper cfg key t₂ n₂ none true false
        (wrapper cfg key t₁ n₁ (some none) true false st).2.1).1 = .ok none ∧
    (wrapper cfg key t₂ n₂ none true false
        (wrapper cfg key t₁ n₁ (some none) true false st).2.1).2.2 = false := by
  obtain ⟨h1, -, ⟨e, he1, he2, -⟩, h4, h5, -⟩ :=
    wrapper_fresh_miss_then_hit cfg key t₁ t₂ n₁ n₂ none none true st hc hm hw
  exact ⟨h1, ⟨e, he1, he2, by simp [he2]⟩, h4, h5⟩

/-- Witness for C6 at concrete inputs. -/
theorem C6_none_value_is_hit_witness :
    (wrapper (V := Option ℕ) (F := ℕ) ⟨false, none, fun _ => 0, fun _ => none⟩
        "k" 1 "a" (some none) true false ⟨[], [], [], .wellFormed []⟩).1 = .ok none ∧
    (∃ e : Entry (Option ℕ),
      lookupA (wrapper (V := Option ℕ) (F := ℕ) ⟨false, none, fun _ => 0, fun _ => none⟩
          "k" 1 "a" (some none) true false ⟨[], [], [], .wellFormed []⟩).2.1.cache "k"
        = some e ∧ e.data = some none ∧ e.data ≠ none) ∧
    (wrapper ⟨false, none, fun _ => 0, fun _ => none⟩ "k" 2 "b" none true false
        (wrapper (V := Option ℕ) (F := ℕ) ⟨false, none, fun _ => 0, fun _ => none⟩
          "k" 1 "a" (some none) true false ⟨[], [], [], .wellFormed []⟩).2.1).1 = .ok none ∧
    (wrapper ⟨false, none, fun _ => 0, fun _ => none⟩ "k" 2 "b" none true false
        (wrapper (V := Option ℕ) (F := ℕ) ⟨false, none, fun _ => 0, fun _ => none⟩
          "k" 1 "a" (some none) true false ⟨[], [], [], .wellFormed []⟩).2.1).2.2 = false :=
  C6_none_value_is_hit ⟨false, none, fun _ => 0, fun _ => none⟩ "k" 1 2 "a" "b"
    ⟨[], [], [], .wellFormed []⟩ rfl rfl (fun d hd => by cases hd)

/-! ### Unfolding and structural lemmas for the wrapper -/

theorem findEntry_cache {V F : Type} (cfg : Config V F) (st : St V F) (key : String)
    (e : Entry V) (h : lookupA st.cache key = some e) :
    findEntry cfg st key = some (true, e) := by
  simp [findEntry, h]

theorem findEntry_manifest {V F : Type} (cfg : Config V F) (st : St V F) (key : String)
    (e : Entry V) (hp : cfg.persist = true) (hc : lookupA st.cache key = none)
    (hm : lookupA st.manifest key = some e) :
    findEntry cfg st key = some (false, e) := by
  simp [findEntry, hp, hc, hm]

theorem findEntry_none {V F : Type} (cfg : Config V F) (st : St V F) (key : String)
    (hc : lookupA st.cache key = none) (hm : lookupA st.manifest key = none) :
    findEntry cfg st key = none := by
  simp [findEntry, hc, hm]

theorem wrapper_eq_reload {V F : Type} (cfg : Config V F) (key : String) (t : ℚ)
    (n : String) (c : Option V) (sOk : Bool) (st : St V F) :
    wrapper cfg key t n c sOk true st = computeAndStore cfg key t n c sOk st := by
  simp [wrapper]

theorem wrapper_eq_of_miss {V F : Type} (cfg : Config V F) (key : String) (t : ℚ)
    (n : String) (c : Option V) (sOk : Bool) (st : St V F)
    (hfe : findEntry cfg st key = none) :
    wrapper cfg key t n c sOk false st = computeAndStore cfg key t n c sOk st := by
  simp [wrapper, hfe]

theorem wrapper_eq_of_found {V F : Type} (cfg : Config V F) (key : String) (t : ℚ)
    (n : String) (c : Option V) (sOk : Bool) (st : St V F) (fc : Bool) (e : Entry V)
    (hfe : findEntry cfg st key = some (fc, e)) :
    wrapper cfg key t n c sOk false st =
      (match e.expiration with
       | .null => serveHit cfg key t n c sOk st fc e
       | .num d =>
         if t - e.created < d then serveHit cfg key t n c sOk st fc e
         else computeAndStore cfg key t n c sOk st
       | .str _ => (.typeError, st, false)) := by
  simp [wrapper, hfe]

/-- Anatomy of the miss path when the wrapped function returns a value. -/
theorem computeAndStore_anatomy {V F : Type} (cfg : Config V F) (key : String)
    (now : ℚ) (n : String) (r : V) (sOk : Bool) (st : St V F) :
    (computeAndStore cfg key now n (some r) sOk st).2.2 = true ∧
    ∃ e' : Entry V,
      lookupA (computeAndStore cfg key now n (some r) sOk st).2.1.cache key = some e' ∧
      e'.created = now ∧ e'.data = some r ∧
      e'.expiration = ofExpiration cfg.expiration ∧
      (cfg.persist = true →
        lookupA (computeAndStore cfg key now n (some r) sOk st).2.1.manifest key = some e' ∧
        e'.name = .str n) ∧
      (cfg.persist = false →
        (computeAndStore cfg key now n (some r) sOk st).2.1.manifest = st.manifest) ∧
      (sOk = true → (computeAndStore cfg key now n (some r) sOk st).1 = .ok r) ∧
      (sOk = false → cfg.persist = true →
        (computeAndStore cfg key now n (some r) sOk st).1 = .storeError ∧
        (computeAndStore cfg key now n (some r) sOk st).2.1.files = st.files) := by
  cases hp : cfg.persist with
  | false =>
    refine ⟨?_, ⟨Entry.init now .null (ofExpiration cfg.expiration) none (some r),
      ?_, ?_, ?_, ?_, ?_, ?_, ?_, ?_⟩⟩ <;>
      simp [computeAndStore, hp, Entry.init]
  | true =>
    cases sOk with
    | true =>
      refine ⟨?_, ⟨{ Entry.init now .null (ofExpiration cfg.expiration) none (some r)
          with name := .str n }, ?_, ?_, ?_, ?_, ?_, ?_, ?_, ?_⟩⟩ <;>
        simp [computeAndStore, hp, Entry.init]
    | false =>
      refine ⟨?_, ⟨{ Entry.init now .null (ofExpiration cfg.expiration) none (some r)
          with name := .str n }, ?_, ?_, ?_, ?_, ?_, ?_, ?_, ?_⟩⟩ <;>
        simp [computeAndStore, hp, Entry.init]

/-- The miss path writes only under `key`. -/
theorem computeAndStore_shape {V F : Type} (cfg : Config V F) (key : String)
    (now : ℚ) (n : String) (c : Option V) (sOk : Bool) (st : St V F) :
    ((computeAndStore cfg key now n c sOk st).2.1.cache = st.cache ∨
      ∃ e, (computeAndStore cfg key now n c sOk st).2.1.cache = setA st.cache key e) ∧
    ((computeAndStore cfg key now n c sOk st).2.1.manifest = st.manifest ∨
      ∃ e, (computeAndStore cfg key now n c sOk st).2.1.manifest = setA st.manifest key e) := by
  cases c with
  | none => exact ⟨Or.inl rfl, Or.inl rfl⟩
  | some r =>
    cases hp : cfg.persist with
    | false =>
      exact ⟨Or.inr ⟨Entry.init now .null (ofExpiration cfg.expiration) none (some r),
        by simp [computeAndStore, hp]⟩, Or.inl (by simp [computeAndStore, hp])⟩
    | true =>
      cases sOk with
      | true =>
        exact ⟨Or.inr ⟨{ Entry.init now .null (ofExpiration cfg.expiration) none (some r)
            with name := .str n }, by simp [computeAndStore, hp]⟩,
          Or.inr ⟨{ Entry.init now .null (ofExpiration cfg.expiration) none (some r)
            with name := .str n }, by simp [computeAndStore, hp]⟩⟩
      | false =>
        exact ⟨Or.inr ⟨{ Entry.init now .null (ofExpiration cfg.expiration) none (some r)
            with name := .str n }, by simp [computeAndStore, hp]⟩,
          Or.inr ⟨{ Entry.init now .null (ofExpiration cfg.expiration) none (some r)
            with name := .str n }, by simp [computeAndStore, hp]⟩⟩

/-- Serving a found entry writes only under `key`. -/
theorem serveHit_shape {V F : Type} (cfg : Config V F) (key : String) (now : ℚ)
    (n : String) (c : Option V) (sOk : Bool) (st : St V F) (fc : Bool) (e : Entry V) :
    ((serveHit cfg key now n c sOk st fc e).2.1.cache = st.cache ∨
      ∃ e', (serveHit cfg key now n c sOk st fc e).2.1.cache = setA st.cache key e') ∧
    ((serveHit cfg key now n c sOk st fc e).2.1.manifest = st.manifest ∨
      ∃ e', (serveHit cfg key now n c sOk st fc e).2.1.manifest = setA st.manifest key e') := by
  cases hd : e.data with
  | some v =>
    exact ⟨Or.inl (by simp [serveHit, hd]), Or.inl (by simp [serveHit, hd])⟩
  | none =>
    cases hp : cfg.persist with
    | false =>
      have h : serveHit cfg key now n c sOk st fc e
          = computeAndStore cfg key now n c sOk st := by
        simp [serveHit, hd, hp]
      rw [h]
      exact computeAndStore_shape cfg key now n c sOk st
    | true =>
      cases hr : retrieveData cfg st.files e.name with
      | none =>
        have h : serveHit cfg key now n c sOk st fc e
            = computeAndStore cfg key now n c sOk st := by
          simp [serveHit, hd, hp, hr]
        rw [h]
        exact computeAndStore_shape cfg key now n c sOk st
      | some v =>
        cases fc with
        | true =>
          exact ⟨Or.inr ⟨{ e with data := some v }, by simp [serveHit, hd, hp, hr]⟩,
            Or.inl (by simp [serveHit, hd, hp, hr])⟩
        | false =>
          exact ⟨Or.inl (by simp [serveHit, hd, hp, hr]),
            Or.inr ⟨{ e with data := some v }, by simp [serveHit, hd, hp, hr]⟩⟩

/-- A wrapper call only ever writes the tiers under its own key. -/
theorem wrapper_shape {V F : Type} (cfg : Config V F) (key : String) (t : ℚ)
    (n : String) (c : Option V) (sOk : Bool) (rl : Bool) (st : St V F) :
    ((wrapper cfg key t n c sOk rl st).2.1.cache = st.cache ∨
      ∃ e, (wrapper cfg key t n c sOk rl st).2.1.cache = setA st.cache key e) ∧
    ((wrapper cfg key t n c sOk rl st).2.1.manifest = st.manifest ∨
      ∃ e, (wrapper cfg key t n c sOk rl st).2.1.manifest = setA st.manifest key e) := by
  cases rl with
  | true =>
    rw [wrapper_eq_reload]
    exact computeAndStore_shape cfg key t n c sOk st
  | false =>
    cases hfe : findEntry cfg st key with
    | none =>
      rw [wrapper_eq_of_miss cfg key t n c sOk st hfe]
      exact computeAndStore_shape cfg key t n c sOk st
    | some p =>
      obtain ⟨fc, e⟩ := p
      rw [wrapper_eq_of_found cfg key t n c sOk st fc e hfe]
      cases hexp : e.expiration with
      | null => exact serveHit_shape cfg key t n c sOk st fc e
      | num d =>
        by_cases hlt : t - e.created < d
        · simp only [hlt, if_true]
          exact serveHit_shape cfg key t n c sOk st fc e
        · simp only [hlt, if_false]
          exact computeAndStore_shape cfg key t n c sOk st
      | str s => exact ⟨Or.inl rfl, Or.inl rfl⟩

theorem lookupA_setA_isSome {α : Type} (l : List (String × α)) (k k' : String) (v : α)
    (h : lookupA l k' ≠ none) : lookupA (setA l k v) k' ≠ none := by
  by_cases hk : k' = k
  · subst hk; simp
  · rw [lookupA_setA_ne l k k' v hk]; exact h

/-! ### C2: expiration boundary and the absence of other eviction -/

/-- C2: for an entry found in the memory tier with expiration `d`: a call
at `t - created < d` returns the cached value with no computation and no
state change; a call at `t - created ≥ d` treats it as a miss, invokes the
wrapped function and stores a fresh entry whose `created` is the call
time; an entry with no expiration is served at every time; and no wrapper
call ever removes a key from either tier (expiration, which only
overwrites the call's own key, is the sole automatic eviction). -/
theorem C2_expiration_boundary {V F : Type} (cfg : Config V F) (key : String) :
    (∀ (st : St V F) (e : Entry V) (v : V) (d t : ℚ) (n : String) (c : Option V) (sOk : Bool),
      lookupA st.cache key = some e → e.expiration = .num d → e.data = some v →
      t - e.created < d →
      wrapper cfg key t n c sOk false st = (.ok v, st, false)) ∧
    (∀ (st : St V F) (e : Entry V) (d t : ℚ) (n : String) (r : V) (sOk : Bool),
      lookupA st.cache key = some e → e.expiration = .num d →
      d ≤ t - e.created →
      (wrapper cfg key t n (some r) sOk false st).2.2 = true ∧
      ∃ e' : Entry V,
        lookupA (wrapper cfg key t n (some r) sOk false st).2.1.cache key = some e' ∧
        e'.created = t ∧ e'.data = some r) ∧
    (∀ (st : St V F) (e : Entry V) (v : V) (t : ℚ) (n : String) (c : Option V) (sOk : Bool),
      lookupA st.cache key = some e → e.expiration = .null → e.data = some v →
      wrapper cfg key t n c sOk false st = (.ok v, st, false)) ∧
    (∀ (st : St V F) (t : ℚ) (n : String) (c : Option V) (sOk rl : Bool) (k' : String),
      (lookupA st.cache k' ≠ none →
        lookupA (wrapper cfg key t n c sOk rl st).2.1.cache k' ≠ none) ∧
      (lookupA st.manifest k' ≠ none →
        lookupA (wrapper cfg key t n c sOk rl st).2.1.manifest k' ≠ none)) := by
  refine ⟨?_, ?_, ?_, ?_⟩
  · intro st e v d t n c sOk hc hexp hdata hlt
    rw [wrapper_eq_of_found cfg key t n c sOk st true e (findEntry_cache cfg st key e hc),
      hexp]
    simp [hlt, serveHit, hdata]
  · intro st e d t n r sOk hc hexp hle
    have hnlt : ¬(t - e.created < d) := not_lt.2 hle
    rw [wrapper_eq_of_found cfg key t n (some r) sOk st true e
      (findEntry_cache cfg st key e hc), hexp]
    simp only [hnlt, if_false]
    obtain ⟨hflag, e', hlk, hcr, hdat, -⟩ := computeAndStore_anatomy cfg key t n r sOk st
    exact ⟨hflag, e', hlk, hcr, hdat⟩
  · intro st e v t n c sOk hc hexp hdata
    rw [wrapper_eq_of_found cfg key t n c sOk st true e (findEntry_cache cfg st key e hc),
      hexp]
    simp [serveHit, hdata]
  · intro st t n c sOk rl k'
    obtain ⟨hcache, hman⟩ := wrapper_shape cfg key t n c sOk rl st
    constructor
    · intro h
      rcases hcache with h1 | ⟨e, h1⟩
      · rw [h1]; exact h
      · rw [h1]; exact lookupA_setA_isSome st.cache key k' e h
    · intro h
      rcases hman with h1 | ⟨e, h1⟩
      · rw [h1]; exact h
      · rw [h1]; exact lookupA_setA_isSome st.manifest key k' e h

/-- Witness for C2 at concrete inputs. -/
theorem C2_expiration_boundary_witness :
    (wrapper (V := ℕ) (F := ℕ) ⟨false, none, id, some⟩ "k" 5 "a" (some 7) true false
        ⟨[("k", ⟨.null, .num 10, 1, some 5⟩)], [], [], .wellFormed []⟩
      = (.ok 5, ⟨[("k", ⟨.null, .num 10, 1, some 5⟩)], [], [], .wellFormed []⟩, false)) ∧
    ((wrapper (V := ℕ) (F := ℕ) ⟨false, none, id, some⟩ "k" 20 "a" (some 7) true false
        ⟨[("k", ⟨.null, .num 10, 1, some 5⟩)], [], [], .wellFormed []⟩).2.2 = true ∧
      ∃ e' : Entry ℕ,
        lookupA (wrapper (V := ℕ) (F := ℕ) ⟨false, none, id, some⟩ "k" 20 "a" (some 7)
            true false
            ⟨[("k", ⟨.null, .num 10, 1, some 5⟩)], [], [], .wellFormed []⟩).2.1.cache "k"
          = some e' ∧ e'.created = 20 ∧ e'.data = some 7) ∧
    (wrapper (V := ℕ) (F := ℕ) ⟨false, none, id, some⟩ "k" 99 "a" (some 7) true false
        ⟨[("k", ⟨.null, .null, 1, some 5⟩)], [], [], .wellFormed []⟩
      = (.ok 5, ⟨[("k", ⟨.null, .null, 1, some 5⟩)], [], [], .wellFormed []⟩, false)) ∧
    (lookupA (wrapper (V := ℕ) (F := ℕ) ⟨false, none, id, some⟩ "k" 3 "a" (some 7) true
        false ⟨[("k2", ⟨.null, .null, 1, some 5⟩)], [], [], .wellFormed []⟩).2.1.cache "k2"
      ≠ none) := by
  obtain ⟨h1, h2, h3, h4⟩ := C2_expiration_boundary (V := ℕ) (F := ℕ) ⟨false, none, id, some⟩ "k"
  refine ⟨h1 ⟨[("k", ⟨.null, .num 10, 1, some 5⟩)], [], [], .wellFormed []⟩
      ⟨.null, .num 10, 1, some 5⟩ 5 10 5 "a" (some 7) true rfl rfl rfl (by norm_num),
    h2 ⟨[("k", ⟨.null, .num 10, 1, some 5⟩)], [], [], .wellFormed []⟩
      ⟨.null, .num 10, 1, some 5⟩ 10 20 "a" 7 true rfl rfl (by norm_num),
    h3 ⟨[("k", ⟨.null, .null, 1, some 5⟩)], [], [], .wellFormed []⟩
      ⟨.null, .null, 1, some 5⟩ 5 99 "a" (some 7) true rfl rfl rfl,
    (h4 ⟨[("k2", ⟨.null, .null, 1, some 5⟩)], [], [], .wellFormed []⟩ 3 "a" (some 7) true
      false "k2").1 (by decide)⟩

/-! ### C3: force-reload bypass -/

/-- C3: with `reload=true` the wrapped function is always invoked,
whatever the prior state, and the fresh entry (data materialized, created
at the call time) replaces the prior entry for the key in the memory
table, and in the manifest when persisting. -/
theorem C3_force_reload {V F : Type} (cfg : Config V F) (key : String) (t : ℚ)
    (n : String) (r : V) (sOk : Bool) (st : St V F) :
    (wrapper cfg key t n (some r) sOk true st).2.2 = true ∧
    ∃ e' : Entry V,
      lookupA (wrapper cfg key t n (some r) sOk true st).2.1.cache key = some e' ∧
      e'.data = some r ∧ e'.created = t ∧
      (cfg.persist = true →
        lookupA (wrapper cfg key t n (some r) sOk true st).2.1.manifest key = some e') := by
  rw [wrapper_eq_reload]
  obtain ⟨hflag, e', hlk, hcr, hdat, hexp, hpt, -⟩ :=
    computeAndStore_anatomy cfg key t n r sOk st
  exact ⟨hflag, e', hlk, hdat, hcr, fun hp => (hpt hp).1⟩

/-- Witness for C3 at concrete inputs (a prior entry exists in both tiers
and is replaced). -/
theorem C3_force_reload_witness :
    (wrapper (V := ℕ) (F := ℕ) ⟨true, none, id, some⟩ "k" 4 "a" (some 8) true true
        ⟨[("k", ⟨.null, .null, 1, some 5⟩)], [("k", ⟨.null, .null, 1, some 5⟩)], [],
          .wellFormed []⟩).2.2 = true ∧
    ∃ e' : Entry ℕ,
      lookupA (wrapper (V := ℕ) (F := ℕ) ⟨true, none, id, some⟩ "k" 4 "a" (some 8) true
          true ⟨[("k", ⟨.null, .null, 1, some 5⟩)], [("k", ⟨.null, .null, 1, some 5⟩)], [],
            .wellFormed []⟩).2.1.cache "k" = some e' ∧
      e'.data = some 8 ∧ e'.created = 4 ∧
      (Config.persist (V := ℕ) (F := ℕ) ⟨true, none, id, some⟩ = true →
        lookupA (wrapper (V := ℕ) (F := ℕ) ⟨true, none, id, some⟩ "k" 4 "a" (some 8) true
            true ⟨[("k", ⟨.null, .null, 1, some 5⟩)], [("k", ⟨.null, .null, 1, some 5⟩)],
              [], .wellFormed []⟩).2.1.manifest "k" = some e') :=
  C3_force_reload ⟨true, none, id, some⟩ "k" 4 "a" 8 true
    ⟨[("k", ⟨.null, .null, 1, some 5⟩)], [("k", ⟨.null, .null, 1, some 5⟩)], [],
      .wellFormed []⟩

/-! ### More wrapper unfolding lemmas -/

theorem wrapper_found_null {V F : Type} (cfg : Config V F) (key : String) (t : ℚ)
    (n : String) (c : Option V) (sOk : Bool) (st : St V F) (fc : Bool) (e : Entry V)
    (hfe : findEntry cfg st key = some (fc, e)) (hexp : e.expiration = .null) :
    wrapper cfg key t n c sOk false st = serveHit cfg key t n c sOk st fc e := by
  rw [wrapper_eq_of_found cfg key t n c sOk st fc e hfe, hexp]

theorem wrapper_found_num_live {V F : Type} (cfg : Config V F) (key : String) (t : ℚ)
    (n : String) (c : Option V) (sOk : Bool) (st : St V F) (fc : Bool) (e : Entry V)
    (d : ℚ) (hfe : findEntry cfg st key = some (fc, e)) (hexp : e.expiration = .num d)
    (hlt : t - e.created < d) :
    wrapper cfg key t n c sOk false st = serveHit cfg key t n c sOk st fc e := by
  rw [wrapper_eq_of_found cfg key t n c sOk st fc e hfe, hexp]
  exact if_pos hlt

theorem wrapper_found_num_expired {V F : Type} (cfg : Config V F) (key : String) (t : ℚ)
    (n : String) (c : Option V) (sOk : Bool) (st : St V F) (fc : Bool) (e : Entry V)
    (d : ℚ) (hfe : findEntry cfg st key = some (fc, e)) (hexp : e.expiration = .num d)
    (hge : ¬(t - e.created < d)) :
    wrapper cfg key t n c sOk false st = computeAndStore cfg key t n c sOk st := by
  rw [wrapper_eq_of_found cfg key t n c sOk st fc e hfe, hexp]
  exact if_neg hge

theorem wrapper_found_str {V F : Type} (cfg : Config V F) (key : String) (t : ℚ)
    (n : String) (c : Option V) (sOk : Bool) (st : St V F) (fc : Bool) (e : Entry V)
    (s : String) (hfe : findEntry cfg st key = some (fc, e))
    (hexp : e.expiration = .str s) :
    wrapper cfg key t n c sOk false st = (.typeError, st, false) := by
  rw [wrapper_eq_of_found cfg key t n c sOk st fc e hfe, hexp]

/-- If the serve path ends up invoking a wrapped function that raises,
the whole call returns the propagated error with the state untouched. -/
theorem serveHit_invoked_none {V F : Type} (cfg : Config V F) (key : String) (now : ℚ)
    (n : String) (sOk : Bool) (st : St V F) (fc : Bool) (e : Entry V)
    (h : (serveHit cfg key now n (none : Option V) sOk st fc e).2.2 = true) :
    serveHit cfg key now n (none : Option V) sOk st fc e = (.computeError, st, true) := by
  cases hd : e.data with
  | some v => simp [serveHit, hd] at h
  | none =>
    cases hp : cfg.persist with
    | false => simp [serveHit, hd, hp, computeAndStore]
    | true =>
      cases hr : retrieveData cfg st.files e.name with
      | some v => cases fc <;> simp [serveHit, hd, hp, hr] at h
      | none => simp [serveHit, hd, hp, hr, computeAndStore]

/-! ### C8: exceptions from the wrapped function propagate, state untouched -/

/-- C8: whenever a call actually invokes the wrapped function (the
invoked flag is true) and that function raises, the wrapper returns the
propagated compute error and the state — memory table, manifest, data
files and metadata file — is exactly the state before the call. -/
theorem C8_compute_exception {V F : Type} (cfg : Config V F) (key : String) (t : ℚ)
    (n : String) (sOk rl : Bool) (st : St V F)
    (hmiss : (wrapper cfg key t n (none : Option V) sOk rl st).2.2 = true) :
    wrapper cfg key t n (none : Option V) sOk rl st = (.computeError, st, true) := by
  have hcs : computeAndStore cfg key t n (none : Option V) sOk st
      = (.computeError, st, true) := rfl
  cases rl with
  | true => rw [wrapper_eq_reload, hcs]
  | false =>
    cases hfe : findEntry cfg st key with
    | none => rw [wrapper_eq_of_miss cfg key t n none sOk st hfe, hcs]
    | some p =>
      obtain ⟨fc, e⟩ := p
      cases hexp : e.expiration with
      | null =>
        rw [wrapper_found_null cfg key t n none sOk st fc e hfe hexp] at hmiss ⊢
        exact serveHit_invoked_none cfg key t n sOk st fc e hmiss
      | num d =>
        by_cases hlt : t - e.created < d
        · rw [wrapper_found_num_live cfg key t n none sOk st fc e d hfe hexp hlt]
            at hmiss ⊢
          exact serveHit_invoked_none cfg key t n sOk st fc e hmiss
        · rw [wrapper_found_num_expired cfg key t n none sOk st fc e d hfe hexp hlt, hcs]
      | str s =>
        rw [wrapper_found_str cfg key t n none sOk st fc e s hfe hexp] at hmiss
        simp at hmiss

/-- Witness for C8 at concrete inputs. -/
theorem C8_compute_exception_witness :
    wrapper (V := ℕ) (F := ℕ) ⟨true, none, id, some⟩ "k" 1 "a" none true false
        ⟨[], [], [], .wellFormed []⟩
      = (.computeError, ⟨[], [], [], .wellFormed []⟩, true) :=
  C8_compute_exception ⟨true, none, id, some⟩ "k" 1 "a" true false
    ⟨[], [], [], .wellFormed []⟩ (by decide)

/-! ### C7: a missing or unreadable data file degrades to recomputation -/

/-- C7: when a non-expired manifest entry has no materialized data and its
data file cannot be read back (missing file, non-string name, or a failing
deserializer), the call does not raise: the wrapped function runs and its
fresh value is returned to the caller. -/
theorem C7_missing_data_falls_through {V F : Type} (cfg : Config V F) (key : String)
    (t : ℚ) (n : String) (r : V) (st : St V F) (e : Entry V)
    (hp : cfg.persist = true)
    (hc : lookupA st.cache key = none)
    (hm : lookupA st.manifest key = some e)
    (hexp : e.expiration = .null ∨ ∃ d, e.expiration = .num d ∧ t - e.created < d)
    (hdata : e.data = none)
    (hret : retrieveData cfg st.files e.name = none) :
    (wrapper cfg key t n (some r) true false st).1 = .ok r ∧
    (wrapper cfg key t n (some r) true false st).2.2 = true := by
  have hfe := findEntry_manifest cfg st key e hp hc hm
  have hsh : serveHit cfg key t n (some r) true st false e
      = computeAndStore cfg key t n (some r) true st := by
    simp [serveHit, hdata, hp, hret]
  obtain ⟨hflag, e', hlk, hcr, hdat, hexp', hpt, hpf, hok, -⟩ :=
    computeAndStore_anatomy cfg key t n r true st
  rcases hexp with h | ⟨d, hd, hlt⟩
  · rw [wrapper_found_null cfg key t n (some r) true st false e hfe h, hsh]
    exact ⟨hok rfl, hflag⟩
  · rw [wrapper_found_num_live cfg key t n (some r) true st false e d hfe hd hlt, hsh]
    exact ⟨hok rfl, hflag⟩

/-- Witness for C7 at concrete inputs: the manifest references data file
"f" but no such file exists. -/
theorem C7_missing_data_falls_through_witness :
    (wrapper (V := ℕ) (F := ℕ) ⟨true, none, id, some⟩ "k" 2 "a" (some 9) true false
        ⟨[], [("k", ⟨.str "f", .null, 1, none⟩)], [], .wellFormed []⟩).1 = .ok 9 ∧
    (wrapper (V := ℕ) (F := ℕ) ⟨true, none, id, some⟩ "k" 2 "a" (some 9) true false
        ⟨[], [("k", ⟨.str "f", .null, 1, none⟩)], [], .wellFormed []⟩).2.2 = true :=
  C7_missing_data_falls_through ⟨true, none, id, some⟩ "k" 2 "a" 9
    ⟨[], [("k", ⟨.str "f", .null, 1, none⟩)], [], .wellFormed []⟩
    ⟨.str "f", .null, 1, none⟩ rfl rfl rfl (Or.inl rfl) rfl rfl

/-! ### C10: a data-file write failure propagates after both commits -/

/-- C10: on a miss with persistence, if writing the computed value to its
data file raises, the call fails with the propagated store error, yet the
fresh entry is already present in the memory table and in the manifest
map, and the data files are unchanged: the commit is not rolled back. -/
theorem C10_persist_write_failure {V F : Type} (cfg : Config V F) (key : String)
    (t : ℚ) (n : String) (r : V) (st : St V F)
    (hp : cfg.persist = true)
    (hc : lookupA st.cache key = none) (hm : lookupA st.manifest key = none) :
    (wrapper cfg key t n (some r) false false st).1 = .storeError ∧
    (∃ e' : Entry V,
      lookupA (wrapper cfg key t n (some r) false false st).2.1.cache key = some e' ∧
      e'.data = some r ∧
      lookupA (wrapper cfg key t n (some r) false false st).2.1.manifest key = some e') ∧
    (wrapper cfg key t n (some r) false false st).2.1.files = st.files := by
  rw [wrapper_eq_of_miss cfg key t n (some r) false st (findEntry_none cfg st key hc hm)]
  obtain ⟨hflag, e', hlk, hcr, hdat, hexp, hpt, hpf, hok, hsf⟩ :=
    computeAndStore_anatomy cfg key t n r false st
  obtain ⟨hse, hfiles⟩ := hsf rfl hp
  exact ⟨hse, ⟨e', hlk, hdat, (hpt hp).1⟩, hfiles⟩

/-- Witness for C10 at concrete inputs. -/
theorem C10_persist_write_failure_witness :
    (wrapper (V := ℕ) (F := ℕ) ⟨true, none, id, some⟩ "k" 1 "a" (some 9) false false
        ⟨[], [], [], .wellFormed []⟩).1 = .storeError ∧
    (∃ e' : Entry ℕ,
      lookupA (wrapper (V := ℕ) (F := ℕ) ⟨true, none, id, some⟩ "k" 1 "a" (some 9) false
          false ⟨[], [], [], .wellFormed []⟩).2.1.cache "k" = some e' ∧
      e'.data = some 9 ∧
      lookupA (wrapper (V := ℕ) (F := ℕ) ⟨true, none, id, some⟩ "k" 1 "a" (some 9) false
          false ⟨[], [], [], .wellFormed []⟩).2.1.manifest "k" = some e') ∧
    (wrapper (V := ℕ) (F := ℕ) ⟨true, none, id, some⟩ "k" 1 "a" (some 9) false false
        ⟨[], [], [], .wellFormed []⟩).2.1.files
      = (⟨[], [], [], .wellFormed []⟩ : St ℕ ℕ).files :=
  C10_persist_write_failure ⟨true, none, id, some⟩ "k" 1 "a" 9
    ⟨[], [], [], .wellFormed []⟩ rfl rfl rfl

/-! ### C9: manifest mutation is memory-only; the file changes only on write -/

/-- C9: `Manifest.set`, `Manifest.pop` and `Manifest.clear` change only the
in-memory map — the durable metadata file component is untouched by each of
them; `pop` on an absent key fails with a `KeyError` (no new state is
produced, so the map is unchanged); only `Manifest.write` changes the file,
serializing the full current map. -/
theorem C9_manifest_mutation_memory_only {V : Type} :
    (∀ (m : ManifestObj V) (k : String) (e : Entry V),
      (Manifest.set m k e).1.file = m.file ∧
      (Manifest.set m k e).1.map = setA m.map k e ∧
      (Manifest.set m k e).2 = e) ∧
    (∀ (m : ManifestObj V) (k : String) (e : Entry V),
      lookupA m.map k = some e →
      Manifest.pop m k = .ok (⟨popA m.map k, m.file⟩, e)) ∧
    (∀ (m : ManifestObj V) (k : String),
      lookupA m.map k = none → Manifest.pop m k = .error ()) ∧
    (∀ m : ManifestObj V,
      (Manifest.clear m).file = m.file ∧ (Manifest.clear m).map = []) ∧
    (∀ m : ManifestObj V,
      (Manifest.write m).map = m.map ∧
      (Manifest.write m).file = .wellFormed (m.map.map fun p => (p.1, p.2.dump))) := by
  refine ⟨fun m k e => ⟨rfl, rfl, rfl⟩, fun m k e h => ?_, fun m k h => ?_,
    fun m => ⟨rfl, rfl⟩, fun m => ⟨rfl, rfl⟩⟩
  · simp [Manifest.pop, h]
  · simp [Manifest.pop, h]

/-- Witness for C9 at concrete inputs. -/
theorem C9_manifest_mutation_memory_only_witness :
    ((Manifest.set (V := ℕ) ⟨[("k", ⟨.null, .null, 1, some 5⟩)], .malformed⟩ "k2"
        ⟨.null, .null, 2, some 6⟩).1.file = .malformed ∧
      (Manifest.set (V := ℕ) ⟨[("k", ⟨.null, .null, 1, some 5⟩)], .malformed⟩ "k2"
        ⟨.null, .null, 2, some 6⟩).1.map
        = setA [("k", ⟨.null, .null, 1, some 5⟩)] "k2" ⟨.null, .null, 2, some 6⟩ ∧
      (Manifest.set (V := ℕ) ⟨[("k", ⟨.null, .null, 1, some 5⟩)], .malformed⟩ "k2"
        ⟨.null, .null, 2, some 6⟩).2 = ⟨.null, .null, 2, some 6⟩) ∧
    Manifest.pop (V := ℕ) ⟨[("k", ⟨.null, .null, 1, some 5⟩)], .malformed⟩ "k"
      = .ok (⟨popA [("k", ⟨.null, .null, 1, some 5⟩)] "k", .malformed⟩,
          ⟨.null, .null, 1, some 5⟩) ∧
    Manifest.pop (V := ℕ) ⟨[("k", ⟨.null, .null, 1, some 5⟩)], .malformed⟩ "nope"
      = .error () ∧
    ((Manifest.clear (V := ℕ) ⟨[("k", ⟨.null, .null, 1, some 5⟩)], .malformed⟩).file
        = .malformed ∧
      (Manifest.clear (V := ℕ) ⟨[("k", ⟨.null, .null, 1, some 5⟩)], .malformed⟩).map = []) ∧
    ((Manifest.write (V := ℕ) ⟨[("k", ⟨.null, .null, 1, some 5⟩)], .malformed⟩).map
        = [("k", ⟨.null, .null, 1, some 5⟩)] ∧
      (Manifest.write (V := ℕ) ⟨[("k", ⟨.null, .null, 1, some 5⟩)], .malformed⟩).file
        = .wellFormed ([("k", (⟨.null, .null, 1, some 5⟩ : Entry ℕ))].map
            fun p => (p.1, p.2.dump))) := by
  obtain ⟨h1, h2, h3, h4, h5⟩ := C9_manifest_mutation_memory_only (V := ℕ)
  exact ⟨h1 ⟨[("k", ⟨.null, .null, 1, some 5⟩)], .malformed⟩ "k2" ⟨.null, .null, 2, some 6⟩,
    h2 ⟨[("k", ⟨.null, .null, 1, some 5⟩)], .malformed⟩ "k" ⟨.null, .null, 1, some 5⟩ rfl,
    h3 ⟨[("k", ⟨.null, .null, 1, some 5⟩)], .malformed⟩ "nope" rfl,
    h4 ⟨[("k", ⟨.null, .null, 1, some 5⟩)], .malformed⟩,
    h5 ⟨[("k", ⟨.null, .null, 1, some 5⟩)], .malformed⟩⟩

/-! ### C4: Manifest.read on corrupt metadata (corrected) -/

/-- C4 counterexample: the claim "read never raises and leaves an empty
map on any malformed content" fails on the code.  A record whose `created`
field is null makes `float(None)` raise a `TypeError` that `read` does not
catch (only `KeyError` and `JSONDecodeError` are caught), so `read`
propagates an error; and a record with missing fields clears the map but
the loop continues, so a later valid record leaves a non-empty map. -/
theorem C4_read_counterexample :
    Manifest.read ℕ 1 (.wellFormed
        [("k", [("name", .null), ("created", .null), ("expiration", .null)])])
      = .error () ∧
    Manifest.read ℕ 1 (.wellFormed
        [("a", []),
         ("b", [("name", .str "f"), ("created", .num 5), ("expiration", .null)])])
      = .ok [("b", ⟨.str "f", .null, 5, none⟩)] ∧
    [("b", (⟨.str "f", .null, 5, none⟩ : Entry ℕ))] ≠ [] := by
  refine ⟨rfl, rfl, by simp⟩

/-- The entry loop never fails when every record loads. -/
theorem readEntries_ok (V : Type) (now : ℚ) :
    ∀ items : List (String × List (String × JVal)),
      (∀ p ∈ items, ∃ e : Entry V, Entry.load V now p.2 = .ok e) →
      ∀ acc, ∃ m, readEntries V now items acc = .ok m := by
  intro items
  induction items with
  | nil => exact fun h acc => ⟨acc, rfl⟩
  | cons p rest ih =>
    intro h acc
    obtain ⟨k, rec⟩ := p
    obtain ⟨e, he⟩ := h (k, rec) (by simp)
    have he' : Entry.load V now rec = .ok e := he
    obtain ⟨m, hm⟩ := ih (fun q hq => h q (by simp [hq])) (setA acc k e)
    refine ⟨m, ?_⟩
    simp only [readEntries, he']
    exact hm

/-- C4 amended: `Manifest.read` never raises when the metadata file fails
to decode (it logs and leaves the map empty), and never raises on a record
with a missing required field — but such a record only clears the map
accumulated so far and the loop continues, so valid records after it are
still loaded (the result is not necessarily empty); a record whose present
`created`/`expiration` field fails numeric conversion makes `read`
propagate the error to its caller. -/
theorem C4_read_amended {V : Type} :
    (∀ now : ℚ, Manifest.read V now .malformed = .ok []) ∧
    (∀ (now : ℚ) (k : String) (rec : List (String × JVal))
        (rest : List (String × List (String × JVal))),
      Entry.load V now rec = .error .keyError →
      Manifest.read V now (.wellFormed ((k, rec) :: rest))
        = Manifest.read V now (.wellFormed rest)) ∧
    (∀ (now : ℚ) (k : String) (rec : List (String × JVal))
        (rest : List (String × List (String × JVal))),
      Entry.load V now rec = .error .valueError →
      Manifest.read V now (.wellFormed ((k, rec) :: rest)) = .error ()) ∧
    (∀ (now : ℚ) (items : List (String × List (String × JVal))),
      (∀ p ∈ items, ∃ e : Entry V, Entry.load V now p.2 = .ok e) →
      ∃ m, Manifest.read V now (.wellFormed items) = .ok m) := by
  refine ⟨fun now => rfl, ?_, ?_, ?_⟩
  · intro now k rec rest h
    simp [Manifest.read, readEntries, h]
  · intro now k rec rest h
    simp [Manifest.read, readEntries, h]
  · intro now items h
    exact readEntries_ok V now items h []

/-- Witness for the amended C4 at concrete inputs. -/
theorem C4_read_amended_witness :
    Manifest.read ℕ 1 .malformed = .ok [] ∧
    Manifest.read ℕ 1 (.wellFormed
        [("a", []),
         ("b", [("name", .str "f"), ("created", .num 5), ("expiration", .null)])])
      = Manifest.read ℕ 1 (.wellFormed
          [("b", [("name", .str "f"), ("created", .num 5), ("expiration", .null)])]) ∧
    Manifest.read ℕ 1 (.wellFormed
        [("c", [("name", .null), ("created", .null), ("expiration", .null)])])
      = .error () ∧
    (∃ m, Manifest.read ℕ 1 (.wellFormed
        [("b", [("name", .str "f"), ("created", .num 5), ("expiration", .null)])])
      = .ok m) := by
  obtain ⟨h1, h2, h3, h4⟩ := C4_read_amended (V := ℕ)
  refine ⟨h1 1,
    h2 1 "a" []
      [("b", [("name", .str "f"), ("created", .num 5), ("expiration", .null)])] rfl,
    h3 1 "c" [("name", .null), ("created", .null), ("expiration", .null)] [] rfl,
    h4 1 [("b", [("name", .str "f"), ("created", .num 5), ("expiration", .null)])] ?_⟩
  intro p hp
  simp only [List.mem_singleton] at hp
  subst hp
  exact ⟨⟨.str "f", .null, 5, none⟩, rfl⟩

/-! ### C5: round-trip persistence -/

/-- `Cache.persist` (the teardown flush registered with `atexit`): when
any decoration enabled persistence, write the manifest map through to the
metadata file. -/
def Cache.persist {V F : Type} (persistFlag : Bool) (st : St V F) : St V F :=
  if persistFlag then
    { st with manifestFile := (Manifest.write ⟨st.manifest, st.manifestFile⟩).file }
  else st

/-- Reconstructing the engine over the same root: fresh memory table, the
manifest map re-read from the metadata file, data files untouched
(a failure of the read propagates out of the constructor). -/
def freshEngine (V : Type) {F : Type} (now : ℚ) (files : List (String × F))
    (file : ManifestFile) : Except Unit (St V F) :=
  (Manifest.read V now file).map fun m => ⟨[], m, files, file⟩

/-- Loading a dumped entry reproduces its name, created and expiration
(for the entries the engine actually builds: nonzero creation time and a
null or numeric expiration), with data reset to the unset sentinel. -/
theorem load_dump {V : Type} (e : Entry V) (now : ℚ) (hc : e.created ≠ 0)
    (hexp : e.expiration = .null ∨ ∃ q, e.expiration = .num q) :
    Entry.load V now e.dump = .ok ⟨e.name, e.expiration, e.created, none⟩ := by
  rcases hexp with h | ⟨q, h⟩
  · simp [Entry.load, Entry.dump, lookupA, pyFloat, h, truthy, Entry.init, hc]
  · by_cases hq : q = 0
    · subst hq
      simp [Entry.load, Entry.dump, lookupA, pyFloat, h, truthy, Entry.init, hc]
    · simp [Entry.load, Entry.dump, lookupA, pyFloat, h, truthy, hq, Entry.init, hc]

/-- C5: with persistence enabled and a round-tripping serializer pair,
after a clean engine computes, commits and stores a value and flushes its
manifest, reconstructing the engine over the same root (fresh memory
table, manifest re-read from the metadata file, same data files) and
calling the same key yields the same value with no new computation — even
if the wrapped function would now fail; and loading a dumped entry
reproduces its name, created and expiration fields. -/
theorem C5_round_trip {V F : Type} (cfg : Config V F) (key : String)
    (t₁ t₂ : ℚ) (n₁ n₂ : String) (v : V) (c₂ : Option V) (sOk₂ : Bool)
    (hp : cfg.persist = true)
    (hrt : cfg.retrieve (cfg.store v) = some v)
    (ht₁ : t₁ ≠ 0)
    (hw : ∀ d, cfg.expiration = some d → t₂ - t₁ < d) :
    (∃ st' : St V F,
      freshEngine V t₂
          (Cache.persist true (wrapper cfg key t₁ n₁ (some v) true false
            ⟨[], [], [], .wellFormed []⟩).2.1).files
          (Cache.persist true (wrapper cfg key t₁ n₁ (some v) true false
            ⟨[], [], [], .wellFormed []⟩).2.1).manifestFile
        = .ok st' ∧
      (wrapper cfg key t₂ n₂ c₂ sOk₂ false st').1 = .ok v ∧
      (wrapper cfg key t₂ n₂ c₂ sOk₂ false st').2.2 = false) ∧
    (∀ (e : Entry V) (now : ℚ), e.created ≠ 0 →
      (e.expiration = .null ∨ ∃ q, e.expiration = .num q) →
      Entry.load V now e.dump = .ok ⟨e.name, e.expiration, e.created, none⟩) := by
  constructor
  · have hfe : findEntry cfg (⟨[], [], [], .wellFormed []⟩ : St V F) key = none := by
      simp [findEntry, lookupA]
    have h1 : wrapper cfg key t₁ n₁ (some v) true false ⟨[], [], [], .wellFormed []⟩
        = (.ok v, ⟨[(key, ⟨.str n₁, ofExpiration cfg.expiration, t₁, some v⟩)],
            [(key, ⟨.str n₁, ofExpiration cfg.expiration, t₁, some v⟩)],
            [(n₁, cfg.store v)], .wellFormed []⟩, true) := by
      rw [wrapper_eq_of_miss cfg key t₁ n₁ (some v) true _ hfe]
      simp [computeAndStore, hp, Entry.init, setA]
    rw [h1]
    have hexpW : (⟨.str n₁, ofExpiration cfg.expiration, t₁, some v⟩ : Entry V).expiration
        = JVal.null ∨
        ∃ q, (⟨.str n₁, ofExpiration cfg.expiration, t₁, some v⟩ : Entry V).expiration
          = JVal.num q := by
      cases cfg.expiration with
      | none => exact Or.inl rfl
      | some q => exact Or.inr ⟨q, rfl⟩
    have h3 : Manifest.read V t₂ (.wellFormed [(key,
        Entry.dump (⟨.str n₁, ofExpiration cfg.expiration, t₁, some v⟩ : Entry V))])
        = .ok [(key, ⟨.str n₁, ofExpiration cfg.expiration, t₁, none⟩)] := by
      simp [Manifest.read, readEntries,
        load_dump (⟨.str n₁, ofExpiration cfg.expiration, t₁, some v⟩ : Entry V) t₂ ht₁
          hexpW, setA]
    refine ⟨⟨[], [(key, ⟨.str n₁, ofExpiration cfg.expiration, t₁, none⟩)],
        [(n₁, cfg.store v)], .wellFormed [(key,
          Entry.dump (⟨.str n₁, ofExpiration cfg.expiration, t₁, some v⟩ : Entry V))]⟩,
      ?_, ?_, ?_⟩
    · simp [Cache.persist, Manifest.write, freshEngine, h3, Except.map]
    · have h5 : findEntry cfg (⟨[], [(key, ⟨.str n₁, ofExpiration cfg.expiration, t₁, none⟩)],
          [(n₁, cfg.store v)], .wellFormed [(key,
            Entry.dump (⟨.str n₁, ofExpiration cfg.expiration, t₁, some v⟩ : Entry V))]⟩
            : St V F) key
          = some (false, ⟨.str n₁, ofExpiration cfg.expiration, t₁, none⟩) := by
        simp [findEntry, lookupA, hp]
      have hcases : ofExpiration cfg.expiration = JVal.null ∨
          ∃ d, ofExpiration cfg.expiration = JVal.num d ∧ cfg.expiration = some d := by
        cases cfg.expiration with
        | none => exact Or.inl rfl
        | some d => exact Or.inr ⟨d, rfl, rfl⟩
      rcases hcases with he | ⟨d, he, hed⟩
      · rw [wrapper_found_null cfg key t₂ n₂ c₂ sOk₂ _ false _ h5 he]
        simp [serveHit, hp, retrieveData, lookupA, hrt]
      · rw [wrapper_found_num_live cfg key t₂ n₂ c₂ sOk₂ _ false _ d h5 he (hw d hed)]
        simp [serveHit, hp, retrieveData, lookupA, hrt]
    · have h5 : findEntry cfg (⟨[], [(key, ⟨.str n₁, ofExpiration cfg.expiration, t₁, none⟩)],
          [(n₁, cfg.store v)], .wellFormed [(key,
            Entry.dump (⟨.str n₁, ofExpiration cfg.expiration, t₁, some v⟩ : Entry V))]⟩
            : St V F) key
          = some (false, ⟨.str n₁, ofExpiration cfg.expiration, t₁, none⟩) := by
        simp [findEntry, lookupA, hp]
      have hcases : ofExpiration cfg.expiration = JVal.null ∨
          ∃ d, ofExpiration cfg.expiration = JVal.num d ∧ cfg.expiration = some d := by
        cases cfg.expiration with
        | none => exact Or.inl rfl
        | some d => exact Or.inr ⟨d, rfl, rfl⟩
      rcases hcases with he | ⟨d, he, hed⟩
      · rw [wrapper_found_null cfg key t₂ n₂ c₂ sOk₂ _ false _ h5 he]
        simp [serveHit, hp, retrieveData, lookupA, hrt]
      · rw [wrapper_found_num_live cfg key t₂ n₂ c₂ sOk₂ _ false _ d h5 he (hw d hed)]
        simp [serveHit, hp, retrieveData, lookupA, hrt]
  · exact fun e now hc hexp => load_dump e now hc hexp

/-- Witness for C5 at concrete inputs. -/
theorem C5_round_trip_witness :
    (∃ st' : St ℕ ℕ,
      freshEngine ℕ 2
          (Cache.persist true (wrapper (V := ℕ) (F := ℕ) ⟨true, some 10, id, some⟩ "k" 1
            "a" (some 7) true false ⟨[], [], [], .wellFormed []⟩).2.1).files
          (Cache.persist true (wrapper (V := ℕ) (F := ℕ) ⟨true, some 10, id, some⟩ "k" 1
            "a" (some 7) true false ⟨[], [], [], .wellFormed []⟩).2.1).manifestFile
        = .ok st' ∧
      (wrapper ⟨true, some 10, id, some⟩ "k" 2 "b" none false false st').1 = .ok 7 ∧
      (wrapper ⟨true, some 10, id, some⟩ "k" 2 "b" none false false st').2.2 = false) ∧
    (∀ (e : Entry ℕ) (now : ℚ), e.created ≠ 0 →
      (e.expiration = .null ∨ ∃ q, e.expiration = .num q) →
      Entry.load ℕ now e.dump = .ok ⟨e.name, e.expiration, e.created, none⟩) :=
  C5_round_trip ⟨true, some 10, id, some⟩ "k" 1 2 "a" "b" 7 none false rfl rfl
    (by norm_num) (fun d hd => by injection hd with h; rw [← h]; norm_num)
